import Mathlib

/-!
Shallow embedding of the `envcacher` repository (files `requirements.py` and
`virtualenvcache.py`) together with theorems checking the natural-language
specification against it.

The requirements side (`Requirement`, `is_vcs`, `natural_sort`, `common_req`,
the manifest loader) is translated from `requirements.py`; the cache side
(`VirtualEnv.build`, `VirtualEnvCache.get`, the key derivation) from
`virtualenvcache.py`.  Exceptions of the Python code become `Except` values,
the filesystem state of one cache-key directory becomes an explicit `VEDir`
value, and the external collaborators (virtualenv creation, `sed`, `pip`,
the `md5` digest) are modelled by their observable interface: a success bit
per external step, and an arbitrary function `String → String` for the hash.
-/

set_option autoImplicit false

deriving instance DecidableEq for Except

namespace Envcacher

/-! ### Python 2 exceptions used by the code -/

inductive PyError where
  /-- `ConflictingRequirementsError` with (an abbreviation of) its message. -/
  | conflict (msg : String)
  /-- a failed `assert` statement -/
  | assertionError
  /-- `AttributeError`, from calling a method on `None` (a failed `re` match) -/
  | attributeError
  /-- `IndexError`, from indexing past the end of the word list -/
  | indexError
  /-- `TypeError`, from sorting `None` inside `natural_sort` -/
  | typeError
  /-- Python's recursion limit, reached by unbounded `-r` self-inclusion -/
  | recursionError
  /-- `IOError` from `open` on a missing include file -/
  | ioError
  /-- `OSError` from `os.makedirs` on an existing path -/
  | osError
  /-- any external build/install step exiting non-zero
      (`virtualenv.create_environment` failing, or
      `BuildingVEUnsuccessfulError` from `VirtualEnv.execlp`) -/
  | buildError
  deriving DecidableEq

/-! ### `natural_sort` (requirements.py lines 46-50)

`convert = lambda text: int(text) if text.isdigit() else text.lower()`
`alphanum_key = lambda key: [convert(c) for c in re.split('([0-9]+)', key)]`
`return sorted(l, key=alphanum_key)`

`re.split('([0-9]+)', s)` alternates non-digit chunks (possibly empty at the
two ends) with maximal digit runs; digit runs become `Nat`s, the rest are
lowercased text.  Python 2 compares such keys listwise, with `int` sorting
before `str` when the kinds differ. -/

inductive NatChunk where
  | num (n : Nat)
  | txt (t : List Char)
  deriving DecidableEq

def digitsToNat (ds : List Char) : Nat :=
  ds.foldl (fun n c => n * 10 + (c.toNat - 48)) 0

/-- Chunk a character list into the alternating text/number key produced by
`re.split('([0-9]+)', ·)` followed by `convert`; `acc` is the reversed
current run, `inDigit` its kind. -/
def natChunksAux : List Char → List Char → Bool → List NatChunk
  | [], acc, true => [.num (digitsToNat acc.reverse), .txt []]
  | [], acc, false => [.txt (acc.reverse.map Char.toLower)]
  | c :: cs, acc, true =>
    if c.isDigit then natChunksAux cs (c :: acc) true
    else .num (digitsToNat acc.reverse) :: natChunksAux cs [c] false
  | c :: cs, acc, false =>
    if c.isDigit then .txt (acc.reverse.map Char.toLower) :: natChunksAux cs [c] true
    else natChunksAux cs (c :: acc) false

def alphanum_key (s : String) : List NatChunk :=
  natChunksAux s.data [] false

def cmpNat (m n : Nat) : Ordering :=
  if m < n then .lt else if n < m then .gt else .eq

def cmpCharList : List Char → List Char → Ordering
  | [], [] => .eq
  | [], _ :: _ => .lt
  | _ :: _, [] => .gt
  | c :: cs, d :: ds =>
    match cmpNat c.toNat d.toNat with
    | .eq => cmpCharList cs ds
    | o => o

def cmpChunk : NatChunk → NatChunk → Ordering
  | .num m, .num n => cmpNat m n
  | .num _, .txt _ => .lt
  | .txt _, .num _ => .gt
  | .txt s, .txt t => cmpCharList s t

def cmpChunkList : List NatChunk → List NatChunk → Ordering
  | [], [] => .eq
  | [], _ :: _ => .lt
  | _ :: _, [] => .gt
  | x :: xs, y :: ys =>
    match cmpChunk x y with
    | .eq => cmpChunkList xs ys
    | o => o

/-- `x` sorts no later than `y` under the natural key. -/
def natLe (x y : String) : Bool :=
  match cmpChunkList (alphanum_key x) (alphanum_key y) with
  | .gt => false
  | _ => true

/-- Stable insertion into an already sorted list (x goes before equal keys
inserted earlier, matching the stability of Python's `sorted`). -/
def insertLe (le : String → String → Bool) (x : String) : List String → List String
  | [] => [x]
  | y :: ys => if le x y then x :: y :: ys else y :: insertLe le x ys

def sortLe (le : String → String → Bool) : List String → List String
  | [] => []
  | x :: xs => insertLe le x (sortLe le xs)

def natural_sort (l : List String) : List String :=
  sortLe natLe l

/-! ### `Requirement` (requirements.py lines 10-27) -/

structure Requirement where
  params : Finset String
  name : String
  url : String
  op : Option String
  version : Option String
  deriving DecidableEq

/-- A fresh `Requirement()` before the parser fills its fields. -/
def Requirement.empty : Requirement :=
  { params := ∅, name := "", url := "", op := none, version := none }

/-! ### `is_vcs` (requirements.py lines 35-43) -/

def vcs_protocols : List String :=
  ["git", "git+http", "git+ssh",
   "hg+http", "hg+https", "hg+static-http", "hg+ssh",
   "bzr+http", "bzr+https", "bzr+ssh", "bzr+sftp", "bzr+ftp", "bzr+lp",
   "svn", "svn+svn", "svn+http", "svn+https", "svn+ssh"]

def is_vcs (word : String) : Bool :=
  vcs_protocols.any (fun proto => proto.data.isPrefixOf word.data)

/-! ### `common_req` (requirements.py lines 53-92)

Python mutates its third argument `d` in place, but only after every check
that can raise has passed; an error therefore leaves `d` untouched.  The
embedding returns `Except (PyError × Requirement) Requirement`: on success
the new value of `d`, on failure the exception together with the value `d`
holds when it propagates (which is always the original `d`, since every
`raise` happens before the five assignments to `d`). -/

/-- Python truthiness of an optional string (`if a.op and b.op`). -/
def truthy : Option String → Bool
  | none => false
  | some s => !(s == "")

def common_req (a b d : Requirement) : Except (PyError × Requirement) Requirement :=
  let cparams := a.params ∪ b.params
  if !(a.name == b.name) then .error (.assertionError, d)
  else
    let vcsA := is_vcs a.url
    let vcsB := is_vcs b.url
    if vcsA && vcsB && !(a.url == b.url) then
      .error (.conflict "Two different VCS sources for a single package", d)
    else
      let curl := if vcsA && vcsB then a.url else if vcsB then b.url else a.url
      if truthy a.op && truthy b.op && is_vcs curl then
        .error (.conflict "Cannot specify a version for a VCS source", d)
      else if a.op.isNone then
        .ok { params := cparams, name := a.name, url := curl, op := b.op, version := b.version }
      else if b.op.isNone then
        .ok { params := cparams, name := a.name, url := curl, op := a.op, version := a.version }
      else
        match a.version, b.version with
        | some va, some vb =>
          let cver := (natural_sort [va, vb]).getLastD ""
          if (a.op == some "==" && !(va == cver)) || (b.op == some "==" && !(vb == cver)) then
            .error (.conflict "Required version mismatch", d)
          else
            -- source line 83 sets only `c.version`; `c.op` keeps the `None`
            -- that `Requirement()` gave it
            .ok { params := cparams, name := a.name, url := curl, op := none, version := some cver }
        | _, _ => .error (.typeError, d)

/-! ### `Requirements.__add_req` (requirements.py lines 104-111)

The collection is the ordered `reqs` list together with the by-name index;
both alias the same objects, so the in-place merge rewrites the entry at its
original position.  On an exception the carried list is the collection as the
caller observes it afterwards. -/

def add_req (reqs : List Requirement) (new : Requirement) :
    Except (PyError × List Requirement) (List Requirement) :=
  match reqs.findIdx? (fun r => r.name == new.name) with
  | some i =>
    match reqs[i]? with
    | some old =>
      match common_req old new old with
      | .ok r => .ok (reqs.set i r)
      | .error (e, dAfter) => .error (e, reqs.set i dAfter)
    | none => .error (.indexError, reqs)
  | none => .ok (reqs ++ [new])

/-! ### `Requirements.load` (requirements.py lines 113-157) -/

def isPkgChar (c : Char) : Bool :=
  c.isAlphanum || c == '_' || c == '.' || c == '-'

def isVerChar (c : Char) : Bool :=
  c.isDigit || c == '.'

/-- `(?P<version>[0-9][0-9.]*)` anchored to the end of the string. -/
def isVerForm : List Char → Bool
  | [] => false
  | c :: cs => c.isDigit && cs.all isVerChar

/-- `(?:(?P<eqop>==)|(?P<geqop>>=))` at the current position. -/
def opOf : List Char → Option (String × List Char)
  | '=' :: '=' :: rest => some ("==", rest)
  | '>' :: '=' :: rest => some (">=", rest)
  | _ => none

/-- `re.match` of `re_package_version` =
`(?P<package>[A-Za-z][A-Za-z0-9_.-]*)(?:(==|>=)(?P<version>[0-9][0-9.]*))?$`.
The greedy package run cannot backtrack (neither `=` nor `>` is a package
character), so the match is: maximal package run, then optionally an operator
and a version run reaching the end. -/
def matchPkgVer (s : String) : Option (String × Option (String × String)) :=
  match s.data with
  | [] => none
  | c :: cs =>
    if c.isAlpha then
      let p : List Char := c :: cs.takeWhile isPkgChar
      match cs.dropWhile isPkgChar with
      | [] => some (String.mk p, none)
      | r =>
        match opOf r with
        | none => none
        | some (o, rest) =>
          if isVerForm rest then some (String.mk p, some (o, String.mk rest)) else none
    else none

/-- `(?P<package>[A-Za-z][A-Za-z0-9_.-]*)` matching the whole string. -/
def pkgForm (s : String) : Bool :=
  match s.data with
  | [] => false
  | c :: cs => c.isAlpha && cs.all isPkgChar

/-- The suffix after the last occurrence of `#egg=`, when one exists. -/
def afterLastEgg : List Char → Option (List Char)
  | [] => none
  | c :: cs =>
    match afterLastEgg cs with
    | some r => some r
    | none =>
      if c == '#' then
        match cs with
        | 'e' :: 'g' :: 'g' :: '=' :: rest => some rest
        | _ => none
      else none

/-- `re.search('#egg=([A-Za-z][A-Za-z0-9_.-]*)$', s)`: only the last
`#egg=` marker can reach the end anchor, because `#` is not a package
character. -/
def eggName (s : String) : Option String :=
  match afterLastEgg s.data with
  | none => none
  | some rest =>
    let cand := String.mk rest
    if pkgForm cand then some cand else none

/-- Accumulate maximal non-whitespace runs; `acc` is the reversed current
run. -/
def wordsAux : List Char → List Char → List String
  | [], [] => []
  | [], acc => [String.mk acc.reverse]
  | c :: cs, acc =>
    if c.isWhitespace then
      match acc with
      | [] => wordsAux cs []
      | _ => String.mk acc.reverse :: wordsAux cs []
    else wordsAux cs (c :: acc)

/-- `line.strip()` followed by `line.split()`: the whitespace-separated
words of the line (empty when the line is blank, in which case `load`
skips it). -/
def wordsOf (line : String) : List String :=
  wordsAux line.data []

/-- One requirement token (after `-r`/`-e` handling): the VCS, `http(s)` and
plain-package branches of `Requirements.load` (lines 142-156). -/
def parseToken (params0 : Finset String) (w : String) : Except PyError Requirement :=
  if is_vcs w then
    match eggName w with
    | none => .error .attributeError
    | some n => .ok { params := params0, name := n, url := w, op := none, version := none }
  else if "http://".data.isPrefixOf w.data || "https://".data.isPrefixOf w.data then
    .ok { params := params0, name := w, url := w, op := none, version := none }
  else
    match matchPkgVer w with
    | none => .error .attributeError
    | some (n, none) => .ok { params := params0, name := n, url := n, op := none, version := none }
    | some (n, some (o, v)) => .ok { params := params0, name := n, url := n, op := some o, version := some v }

/-- The per-line loop of `Requirements.load`; `sub` performs a `-r`
include (opening the file and loading it into the same collection). -/
def loadAux (sub : String → List Requirement → Except PyError (List Requirement)) :
    List String → List Requirement → Except PyError (List Requirement)
  | [], reqs => .ok reqs
  | line :: rest, reqs =>
      -- a stripped-empty line yields no words and is skipped
      match wordsOf line with
      | [] => loadAux sub rest reqs
      | w :: ws =>
        if w == "-r" then
          match ws with
          | [] => .error .indexError
          | fn :: _ =>
            match sub fn reqs with
            | .error e => .error e
            | .ok reqs2 => loadAux sub rest reqs2
        else
          let pw : Finset String × List String :=
            if w == "-e" then ({"-e"}, ws) else (∅, w :: ws)
          match pw.2 with
          | [] => .error .indexError
          | t :: _ =>
            match parseToken pw.1 t with
            | .error e => .error e
            | .ok req =>
              match add_req reqs req with
              | .error (e, _) => .error e
              | .ok reqs2 => loadAux sub rest reqs2

/-- `Requirements.load` with includes resolved against a file table and a
bound on include nesting (Python's interpreter recursion limit plays the
same role). -/
def load (files : List (String × List String)) :
    Nat → List String → List Requirement → Except PyError (List Requirement)
  | 0 => loadAux (fun _ _ => .error .recursionError)
  | depth + 1 =>
    loadAux (fun fn reqs =>
      match files.lookup fn with
      | none => .error .ioError
      | some ls => load files depth ls reqs)

/-! ### `Requirement.__str__` and `RequirementsKey.get_key`
(requirements.py lines 19-24, virtualenvcache.py lines 103-106)

`str(r)` is each param followed by a space, then `url`, then `op` and
`version` with `None` rendered empty.  Python iterates the `params` set in
an unspecified order; every reachable set has at most one element (`-e`), so
we fix the order by sorting, which agrees with Python on all reachable
values.  The `md5` of `hashlib` is an external collaborator, modelled as an
arbitrary function from the serialized text to a digest string. -/

def Requirement.str (r : Requirement) : String :=
  String.join ((r.params.sort (fun x y => x ≤ y)).map (fun p => p ++ " "))
    ++ r.url ++ r.op.getD "" ++ r.version.getD ""

def get_key (md5hex : String → String) (reqs : List Requirement) : String :=
  md5hex (String.intercalate "\n" (reqs.map Requirement.str))

/-- Modelled from the spec (section 4.3): one line per Requirement,
`"<params-each-followed-by-space><url><op><version>"`, joined by newlines.
Used as the comparison target for the key-derivation claim. -/
def specKeyLine (r : Requirement) : String :=
  String.join ((r.params.sort (fun x y => x ≤ y)).map (fun p => p ++ " "))
    ++ r.url ++ r.op.getD "" ++ r.version.getD ""

/-- Modelled from the spec (section 4.3): the serialized collection text. -/
def specKeyText (reqs : List Requirement) : String :=
  String.intercalate "\n" (reqs.map specKeyLine)

/-! ### The artifact directory and the external build steps
(virtualenvcache.py, `VirtualEnv` and `VirtualEnvCache`)

The state of the one directory a `get` call touches: absent, or present with
or without the good-mark sentinel file (`1335_HaXx0r_approved`).  `mark_as_
good` creates the sentinel; a failed build never reaches it, so the
directory stays in the Bad state.  External steps are recorded as events so
that frame claims ("the installer is not invoked again") are statable. -/

inductive VEDir where
  | absent
  | present (good : Bool)
  deriving DecidableEq

def VEDir.isPresent : VEDir → Bool
  | .absent => false
  | .present _ => true

/-- `VirtualEnv.is_good`: the sentinel file exists (so the directory does). -/
def VEDir.isGood : VEDir → Bool
  | .present true => true
  | _ => false

/-- Outcomes of the external collaborators: `virtualenv.create_environment`,
the `sed` call of the `--fix-pip` patch, and `pip install`. -/
structure BuildEnv where
  createOk : Bool
  sedOk : Bool
  installOk : Bool
  deriving DecidableEq

/-- Observable actions on the filesystem or via subprocesses. -/
inductive Event where
  | removed
  | madeDirs
  | createdEnv
  | sedFixed
  | wroteReqs
  | ranInstaller
  | markedGood
  deriving DecidableEq

/-- `os.path.basename`: the suffix after the last `/`. -/
def basename (p : String) : String :=
  String.mk ((p.data.reverse.takeWhile (fun c => !(c == '/'))).reverse)

/-- expected cache-key shape: the 32 lowercase-hex characters of an `md5`
hex digest (spec section 4.4's "fixed-length hex key format"). -/
def isHexKey32 (s : String) : Bool :=
  s.length == 32 && s.data.all (fun c => c.isDigit || ('a' ≤ c && c ≤ 'f'))

/-- `VirtualEnv.build` (virtualenvcache.py lines 123-157).  Errors carry the
directory state and the events so far, mirroring what a caller's exception
handler observes. -/
def VirtualEnv.build (path : String) (dir : VEDir) (env : BuildEnv)
    (fixPip force : Bool) :
    Except (PyError × VEDir × List Event) (VEDir × List Event) :=
  -- "a simple check that what we want to remove looks like a ve name :)"
  let step0 : Except (PyError × VEDir × List Event) (VEDir × List Event) :=
    if force && dir.isPresent then
      if (basename path).length == 32 then .ok (.absent, [.removed])
      else .error (.assertionError, dir, [])
    else .ok (dir, [])
  match step0 with
  | .error e => .error e
  | .ok (d1, ev1) =>
    if d1.isPresent then .error (.osError, d1, ev1)
    else
      let d2 : VEDir := .present false
      let ev3 := ev1 ++ [.madeDirs, .createdEnv]
      if !env.createOk then .error (.buildError, d2, ev3)
      else
        let fixStep : Except (PyError × VEDir × List Event) (List Event) :=
          if fixPip then
            if env.sedOk then .ok (ev3 ++ [.sedFixed])
            else .error (.buildError, d2, ev3 ++ [.sedFixed])
          else .ok ev3
        match fixStep with
        | .error e => .error e
        | .ok ev4 =>
          -- key.initialize(ve): write requirements.txt, then pip install
          let ev5 := ev4 ++ [.wroteReqs, .ranInstaller]
          if !env.installOk then .error (.buildError, d2, ev5)
          else .ok (.present true, ev5 ++ [.markedGood])

/-- `VirtualEnvCache.get` (virtualenvcache.py lines 218-242). -/
def VirtualEnvCache.get (path : String) (dir : VEDir) (env : BuildEnv)
    (fixPip keepBroken : Bool) :
    Except (PyError × VEDir × List Event) (VEDir × List Event) :=
  if dir.isGood then .ok (dir, [])
  else
    match VirtualEnv.build path dir env fixPip true with
    | .ok r => .ok r
    | .error (e, d, evs) =>
      if !keepBroken && d.isPresent then .error (e, .absent, evs ++ [.removed])
      else .error (e, d, evs)

/-! ### Helper lemmas -/

theorem cmpNat_swap (m n : Nat) : cmpNat n m = (cmpNat m n).swap := by
  unfold cmpNat
  split_ifs <;> first | rfl | omega

theorem cmpCharList_swap (s t : List Char) : cmpCharList t s = (cmpCharList s t).swap := by
  induction s generalizing t with
  | nil => cases t <;> rfl
  | cons c cs ih =>
    cases t with
    | nil => rfl
    | cons d ds =>
      simp only [cmpCharList, cmpNat_swap c.toNat d.toNat]
      cases cmpNat c.toNat d.toNat with
      | lt => rfl
      | eq => exact ih ds
      | gt => rfl

theorem cmpChunk_swap (x y : NatChunk) : cmpChunk y x = (cmpChunk x y).swap := by
  cases x <;> cases y
  · exact cmpNat_swap _ _
  · rfl
  · rfl
  · exact cmpCharList_swap _ _

theorem cmpChunkList_swap (xs ys : List NatChunk) :
    cmpChunkList ys xs = (cmpChunkList xs ys).swap := by
  induction xs generalizing ys with
  | nil => cases ys <;> rfl
  | cons x xs ih =>
    cases ys with
    | nil => rfl
    | cons y ys =>
      simp only [cmpChunkList, cmpChunk_swap x y]
      cases cmpChunk x y with
      | lt => rfl
      | eq => exact ih ys
      | gt => rfl

theorem natural_sort_pair (x y : String) :
    natural_sort [x, y] = if natLe x y then [x, y] else [y, x] := by
  cases h : natLe x y <;> simp [natural_sort, sortLe, insertLe, h]

theorem natural_sort_last_swap (x y : String)
    (h : cmpChunkList (alphanum_key x) (alphanum_key y) ≠ .eq) :
    (natural_sort [y, x]).getLastD "" = (natural_sort [x, y]).getLastD "" := by
  cases hxy : cmpChunkList (alphanum_key x) (alphanum_key y) with
  | eq => exact absurd hxy h
  | lt =>
    have h1 : natLe x y = true := by unfold natLe; rw [hxy]
    have h2 : natLe y x = false := by
      unfold natLe; rw [cmpChunkList_swap, hxy]; decide
    rw [natural_sort_pair, natural_sort_pair, h1, h2]
    simp
  | gt =>
    have h1 : natLe x y = false := by unfold natLe; rw [hxy]
    have h2 : natLe y x = true := by
      unfold natLe; rw [cmpChunkList_swap, hxy]; decide
    rw [natural_sort_pair, natural_sort_pair, h1, h2]
    simp

theorem common_req_error_frame (a b d d' : Requirement) (e : PyError)
    (h : common_req a b d = .error (e, d')) : d' = d := by
  unfold common_req at h
  dsimp only at h
  repeat' split at h
  all_goals simp_all

theorem list_set_getElem_self {α : Type} (l : List α) (i : Nat) (a : α)
    (h : l[i]? = some a) : l.set i a = l := by
  induction l generalizing i with
  | nil => simp at h
  | cons x xs ih =>
    cases i with
    | zero => simp at h; simp [List.set, h]
    | succ j => simp at h; simp [List.set, ih j h]

theorem add_req_error_frame (reqs reqs' : List Requirement) (new : Requirement) (e : PyError)
    (h : add_req reqs new = .error (e, reqs')) : reqs' = reqs := by
  unfold add_req at h
  split at h
  · split at h
    · split at h
      · simp at h
      · rename_i optIdx i hfind optOld old hold exc e0 dAfter hcmn
        have hd : dAfter = old := common_req_error_frame _ _ _ _ _ hcmn
        simp only [Except.error.injEq, Prod.mk.injEq] at h
        rw [← h.2, hd, list_set_getElem_self reqs i old hold]
    · simp only [Except.error.injEq, Prod.mk.injEq] at h
      exact h.2.symm
  · simp at h


/-! ### Claim theorems -/

/-- C1: merging `flask==1.0` with `flask>=0.9` in one manifest is claimed to
keep the exact-pin operator (`op == "=="`, `version == "1.0"`); evaluating
the loader at exactly this input shows the code instead drops the operator
(`op = none`) while keeping version `"1.0"`, because the both-operators
branch of `common_req` never assigns `c.op`. -/
theorem c1_exact_pin_operator_dropped :
    load [] 0 ["flask==1.0", "flask>=0.9"] [] =
      .ok [{ params := ∅, name := "flask", url := "flask", op := none, version := some "1.0" }] := by
  decide

/-- C2: the invariant "op is set iff version is set" is claimed for every
reachable Requirement; the same two-line manifest produces a reachable
Requirement with `version` set and `op = none`, violating it. -/
theorem c2_op_version_invariant_violated :
    ∃ r : Requirement,
      load [] 0 ["flask==1.0", "flask>=0.9"] [] = .ok [r] ∧
        r.op = none ∧ r.version ≠ none :=
  ⟨{ params := ∅, name := "flask", url := "flask", op := none, version := some "1.0" },
    by decide, rfl, by decide⟩

/-- C3 counterexample: parsing `git+ssh://x/y#egg=flask` together with
`flask==1.0` is claimed to raise ConflictingVersion; in fact the load
succeeds (the VCS requirement carries no operator, and the conflict check
fires only when both sides carry one). -/
theorem c3_counterexample_vcs_pin_load_succeeds :
    load [] 0 ["git+ssh://x/y#egg=flask", "flask==1.0"] [] =
      .ok [{ params := ∅, name := "flask", url := "git+ssh://x/y#egg=flask",
             op := some "==", version := some "1.0" }] := by
  decide

/-- C3 amended: merging a VCS requirement (no operator) with a same-named
non-VCS requirement succeeds, keeping the VCS url and adopting the other
side's operator and version; ConflictingVersion is raised only when both
inputs carry operators. -/
theorem c3_vcs_pin_merge_amended (a b d : Requirement)
    (hname : a.name = b.name) (hvcsa : is_vcs a.url = true)
    (hvcsb : is_vcs b.url = false) (hop : a.op = none) :
    common_req a b d =
      .ok { params := a.params ∪ b.params, name := a.name, url := a.url,
            op := b.op, version := b.version } := by
  unfold common_req
  simp [hname, hvcsa, hvcsb, hop, truthy]

theorem c3_vcs_pin_merge_amended_witness :
    common_req
        { params := ∅, name := "flask", url := "git+ssh://x/y#egg=flask",
          op := none, version := none }
        { params := ∅, name := "flask", url := "flask", op := some "==", version := some "1.0" }
        Requirement.empty =
      .ok { params := (∅ : Finset String) ∪ ∅, name := "flask",
            url := "git+ssh://x/y#egg=flask", op := some "==", version := some "1.0" } :=
  c3_vcs_pin_merge_amended _ _ _ rfl (by decide) (by decide) rfl

/-- C9: `is_vcs` is a pure prefix test, so any first token beginning with a
scheme string (e.g. the plain package name `gitpython`) takes the VCS
branch; with no `#egg=<name>` fragment the egg match is `None` and the load
raises AttributeError instead of producing a Requirement. -/
theorem c9_vcs_prefix_token_crashes
    (sub : String → List Requirement → Except PyError (List Requirement))
    (line w : String) (ws rest : List String) (reqs : List Requirement)
    (hw : wordsOf line = w :: ws)
    (hvcs : is_vcs w = true)
    (hegg : eggName w = none) :
    loadAux sub (line :: rest) reqs = .error .attributeError := by
  have hr : (w == "-r") = false := by
    cases heq : w == "-r"
    · rfl
    · exact absurd (by rw [eq_of_beq heq] at hvcs; exact hvcs) (by decide)
  have he : (w == "-e") = false := by
    cases heq : w == "-e"
    · rfl
    · exact absurd (by rw [eq_of_beq heq] at hvcs; exact hvcs) (by decide)
  simp [loadAux, hw, hr, he, parseToken, hvcs, hegg]

theorem c9_vcs_prefix_token_crashes_witness :
    loadAux (fun _ _ => .error .recursionError) ["gitpython"] [] = .error .attributeError :=
  c9_vcs_prefix_token_crashes _ "gitpython" "gitpython" [] [] []
    (by decide) (by decide) (by decide)

/-- C10: when a merge raises, `common_req` has not yet assigned to its
destination, so the stored collection is exactly what it was before the
failed `__add_req`. -/
theorem c10_merge_atomic_on_error (reqs reqs' : List Requirement) (new : Requirement)
    (e : PyError) (h : add_req reqs new = .error (e, reqs')) : reqs' = reqs :=
  add_req_error_frame reqs reqs' new e h

theorem c10_merge_atomic_on_error_witness :
    ([{ params := ∅, name := "flask", url := "flask", op := some "==", version := some "1.0" }]
        : List Requirement) =
      [{ params := ∅, name := "flask", url := "flask", op := some "==", version := some "1.0" }] :=
  c10_merge_atomic_on_error _ _
    { params := ∅, name := "flask", url := "flask", op := some "==", version := some "2.0" }
    (.conflict "Required version mismatch") (by decide)



/-- C4 counterexample: the claim says the base name is verified to be
exactly the fixed-length hex key format and that any other name makes the
operation fail with no removal; a 32-character non-hex name (`"zzzz..."`)
is not hex-shaped, yet the forced build removes the directory and rebuilds,
because the code checks only `len(basename) == 32`. -/
theorem c4_counterexample_nonhex_name_removed :
    isHexKey32 "zzzzzzzzzzzzzzzzzzzzzzzzzzzzzzzz" = false ∧
    VirtualEnv.build "cache/zzzzzzzzzzzzzzzzzzzzzzzzzzzzzzzz" (.present false)
        { createOk := true, sedOk := true, installOk := true } false true =
      .ok (.present true,
        [.removed, .madeDirs, .createdEnv, .wroteReqs, .ranInstaller, .markedGood]) := by
  decide

/-- C4 amended: the safety check verifies only that the base name has the
fixed length (32 characters); for every existing directory whose base name
has a different length, the forced build fails with AssertionError and
performs no filesystem mutation. -/
theorem c4_forced_destroy_length_check (path : String) (g : Bool) (env : BuildEnv)
    (fixPip : Bool) (hlen : (basename path).length ≠ 32) :
    VirtualEnv.build path (.present g) env fixPip true =
      .error (.assertionError, .present g, []) := by
  have h32 : ((basename path).length == 32) = false := by
    simpa using hlen
  unfold VirtualEnv.build
  simp [h32, VEDir.isPresent]

theorem c4_forced_destroy_length_check_witness :
    VirtualEnv.build "cache/short" (.present false)
        { createOk := true, sedOk := true, installOk := true } false true =
      .error (.assertionError, .present false, []) :=
  c4_forced_destroy_length_check "cache/short" false _ false (by decide)

/-- C5: `get` on a Good artifact returns it unchanged: the directory state
is untouched and no external step (removal, build, install) runs. -/
theorem c5_good_artifact_returned_unchanged (path : String) (dir : VEDir)
    (env : BuildEnv) (fixPip keepBroken : Bool) (hgood : dir.isGood = true) :
    VirtualEnvCache.get path dir env fixPip keepBroken = .ok (dir, []) := by
  unfold VirtualEnvCache.get
  simp [hgood]

theorem c5_good_artifact_returned_unchanged_witness :
    VirtualEnvCache.get "cache/k" (.present true)
        { createOk := true, sedOk := true, installOk := true } false false =
      .ok (.present true, []) :=
  c5_good_artifact_returned_unchanged "cache/k" (.present true) _ false false (by decide)

/-- C8: when an external build or install step fails during a rebuild of a
non-Good artifact (with a key-shaped path name), the failure propagates as
an error; by default the Bad directory is removed before propagating, under
keep-broken it stays present in the Bad state. -/
theorem c8_build_failure_cleanup (path : String) (dir : VEDir) (env : BuildEnv)
    (fixPip keepBroken : Bool)
    (hbad : dir.isGood = false)
    (hlen : (basename path).length = 32)
    (hfail : env.createOk = false ∨ (fixPip = true ∧ env.sedOk = false) ∨
      env.installOk = false) :
    ∃ evs : List Event,
      VirtualEnvCache.get path dir env fixPip keepBroken =
        .error (.buildError,
          if keepBroken then VEDir.present false else VEDir.absent, evs) := by
  have h32 : ((basename path).length == 32) = true := by simp [hlen]
  obtain ⟨cok, sok, iok⟩ := env
  cases dir with
  | absent =>
    cases fixPip <;> cases keepBroken <;> cases cok <;> cases sok <;> cases iok <;>
      simp_all [VirtualEnvCache.get, VirtualEnv.build, VEDir.isGood, VEDir.isPresent]
  | present g =>
    cases g with
    | false =>
      cases fixPip <;> cases keepBroken <;> cases cok <;> cases sok <;> cases iok <;>
        simp_all [VirtualEnvCache.get, VirtualEnv.build, VEDir.isGood, VEDir.isPresent]
    | true => simp [VEDir.isGood] at hbad

theorem c8_build_failure_cleanup_witness :
    ∃ evs : List Event,
      VirtualEnvCache.get "cache/0123456789abcdef0123456789abcdef" (.present false)
          { createOk := false, sedOk := true, installOk := true } false false =
        .error (.buildError, VEDir.absent, evs) :=
  c8_build_failure_cleanup "cache/0123456789abcdef0123456789abcdef" (.present false)
    { createOk := false, sedOk := true, installOk := true } false false
    (by decide) (by decide) (Or.inl rfl)

/-- C6: the cache key is the hash of the collection serialized in order as
`"<params-each-followed-by-space><url><op><version>"` lines joined by
newlines (absent op/version rendering empty), and key derivation is
deterministic: equal collections give equal digests. -/
theorem c6_key_format_and_determinism :
    (∀ (md5hex : String → String) (reqs : List Requirement),
        get_key md5hex reqs = md5hex (specKeyText reqs)) ∧
    (∀ (md5hex : String → String) (reqs1 reqs2 : List Requirement),
        reqs1 = reqs2 → get_key md5hex reqs1 = get_key md5hex reqs2) := by
  constructor
  · intro md5hex reqs
    rfl
  · intro md5hex reqs1 reqs2 he
    rw [he]

theorem c6_key_format_and_determinism_witness :
    get_key (fun s => s)
        [{ params := ∅, name := "flask", url := "flask", op := some "==",
           version := some "1.0" }] =
      get_key (fun s => s)
        [{ params := ∅, name := "flask", url := "flask", op := some "==",
           version := some "1.0" }] :=
  c6_key_format_and_determinism.2 (fun s => s) _ _ rfl



/-- C7 counterexample: two same-named plain requirements whose versions tie
under the natural key (`"1.0"` vs `"1.00"`) merge without conflict in both
orders but give different results (`version` `"1.00"` one way, `"1.0"` the
other), so the claimed field-for-field commutativity fails. -/
theorem c7_counterexample_merge_order_matters :
    is_vcs "pkg" = false ∧
    common_req { params := ∅, name := "pkg", url := "pkg", op := some ">=", version := some "1.0" }
        { params := ∅, name := "pkg", url := "pkg", op := some ">=", version := some "1.00" }
        Requirement.empty =
      .ok { params := ∅, name := "pkg", url := "pkg", op := none, version := some "1.00" } ∧
    common_req { params := ∅, name := "pkg", url := "pkg", op := some ">=", version := some "1.00" }
        { params := ∅, name := "pkg", url := "pkg", op := some ">=", version := some "1.0" }
        Requirement.empty =
      .ok { params := ∅, name := "pkg", url := "pkg", op := none, version := some "1.0" } ∧
    common_req { params := ∅, name := "pkg", url := "pkg", op := some ">=", version := some "1.0" }
        { params := ∅, name := "pkg", url := "pkg", op := some ">=", version := some "1.00" }
        Requirement.empty ≠
      common_req { params := ∅, name := "pkg", url := "pkg", op := some ">=", version := some "1.00" }
        { params := ∅, name := "pkg", url := "pkg", op := some ">=", version := some "1.0" }
        Requirement.empty := by
  refine ⟨by decide, by decide, by decide, by decide⟩

/-- C7 amended: for same-named requirements with equal non-VCS urls that
satisfy the op-version coupling and whose versions do not tie under the
natural key, a successful merge is commutative field for field. -/
theorem c7_merge_commutative_amended (a b d dr r : Requirement)
    (hname : a.name = b.name)
    (hvcsa : is_vcs a.url = false) (hvcsb : is_vcs b.url = false)
    (hurl : a.url = b.url)
    (hva : a.op = none → a.version = none)
    (hvb : b.op = none → b.version = none)
    (hkey : ∀ va vb, a.version = some va → b.version = some vb →
        cmpChunkList (alphanum_key va) (alphanum_key vb) ≠ .eq)
    (h : common_req a b d = .ok r) :
    common_req b a dr = .ok r := by
  unfold common_req at h ⊢
  cases ha : a.op with
  | none =>
    cases hb : b.op with
    | none =>
      simp_all [truthy, Finset.union_comm]
    | some yb =>
      simp_all [truthy, Finset.union_comm]
  | some xa =>
    cases hb : b.op with
    | none =>
      simp_all [truthy, Finset.union_comm]
    | some yb =>
      cases hva2 : a.version with
      | none => simp_all [truthy]
      | some va =>
        cases hvb2 : b.version with
        | none => simp_all [truthy]
        | some vb =>
          have hswap := natural_sort_last_swap va vb (hkey va vb hva2 hvb2)
          simp_all [truthy, Finset.union_comm, Bool.or_comm]
          split at h
          · simp at h
          · rename_i hcond
            rw [if_neg hcond]
            exact h


theorem c7_merge_commutative_amended_witness :
    common_req { params := ∅, name := "pkg", url := "pkg", op := some ">=", version := some "2.0" }
        { params := ∅, name := "pkg", url := "pkg", op := some ">=", version := some "1.0" }
        Requirement.empty =
      .ok { params := ∅, name := "pkg", url := "pkg", op := none, version := some "2.0" } :=
  c7_merge_commutative_amended
    { params := ∅, name := "pkg", url := "pkg", op := some ">=", version := some "1.0" }
    { params := ∅, name := "pkg", url := "pkg", op := some ">=", version := some "2.0" }
    Requirement.empty Requirement.empty _ rfl (by decide) (by decide) rfl
    (fun hx => absurd hx (by decide)) (fun hx => absurd hx (by decide))
    (fun va vb hva hvb => by cases hva; cases hvb; decide)
    (by decide)

end Envcacher
